import Mathlib

/-!
Verification of the `mcp_ui_automator` MCP server (Python sources
`mcp_server/android_client.py` and `mcp_server/server.py`) against its
natural-language specification.

The embedding models JSON values (`JValue`), Python dictionaries as
association lists, the HTTP backend as a function from requests to
transport outcomes (`Backend`), the client `AndroidClient._make_request`
and its operation wrappers, `json.dumps` with `indent`/`ensure_ascii`,
and the two protocol handlers `handle_call_tool` and
`handle_read_resource` from `server.py`.  Python exceptions are modelled
with `Except PyErr`; a function whose Lean type is exception-free models
Python code that cannot raise to its caller.
-/

/-- JSON values, as decoded by Python.  Numbers are modelled as integers
(no claim involves fractional numbers). -/
inductive JValue where
  | null : JValue
  | bool : Bool → JValue
  | num : Int → JValue
  | str : String → JValue
  | arr : List JValue → JValue
  | obj : List (String × JValue) → JValue
deriving Repr

/-- Python `v is None` on a decoded JSON value. -/
def isNull : JValue → Bool
  | .null => true
  | _ => false

/-- Python `dict.get(k)` on an association list (first binding wins,
as Python dicts have unique keys). -/
def dget (d : List (String × JValue)) (k : String) : Option JValue :=
  (d.find? (fun kv => kv.1 == k)).map (fun kv => kv.2)

/-- Python `dict.get(k, default)`. -/
def dgetD (d : List (String × JValue)) (k : String) (default : JValue) : JValue :=
  (dget d k).getD default

/-- A Python exception as observed by an `except` clause:
`ty` is `type(e).__name__`, `msg` is `str(e)`. -/
structure PyErr where
  ty : String
  msg : String
deriving Repr, DecidableEq

/-- Python subscript access `d[k]`, raising `KeyError` when absent.
`str(KeyError(k))` is the repr of the key, hence the quotes. -/
def dsub (d : List (String × JValue)) (k : String) : Except PyErr JValue :=
  match dget d k with
  | some v => Except.ok v
  | none => Except.error ⟨"KeyError", "'" ++ k ++ "'"⟩

/-- Python dict assignment `d[k] = v`: replaces the value at an existing
key in place, otherwise appends the new binding at the end. -/
def setKey : List (String × JValue) → String → JValue → List (String × JValue)
  | [], k, v => [(k, v)]
  | (k0, v0) :: fs, k, v =>
      if k0 == k then (k0, v) :: fs else (k0, v0) :: setKey fs k v

/-- The message of the `TypeError` Python raises on `result[k] = v` when
`result` is not a dict (`android_client.py` line 60 on a non-object body). -/
def itemAssignMsg : JValue → String
  | .null => "'NoneType' object does not support item assignment"
  | .bool _ => "'bool' object does not support item assignment"
  | .num _ => "'int' object does not support item assignment"
  | .str _ => "'str' object does not support item assignment"
  | .arr _ => "'list' object does not support item assignment"
  | .obj _ => "'dict' object does not support item assignment"

/-- Outcome of one HTTP exchange, as observed at the boundary of the
`try` block of `AndroidClient._make_request`: either a response (content
type, decoded JSON body, raw text body, status code), or an
`aiohttp.ClientError`, or any other unexpected exception. -/
inductive HttpOutcome where
  | response (contentType : String) (jsonBody : JValue) (text : String) (status : Nat)
  | clientError (msg : String)
  | unexpectedError (msg : String)

/-- The automation backend: maps (method, endpoint, optional JSON data)
to the outcome of the exchange. -/
def Backend : Type := String → String → Option JValue → HttpOutcome

/-- `AndroidClient._make_request` (`android_client.py` lines 40-77):
decode the body (wrapping non-JSON content types as
`{"content": <raw text>}`), append `http_status` on status ≥ 400, and
convert `aiohttp.ClientError` / any other exception into the two error
envelopes.  Total: the Python contract that it never raises. -/
def make_request (b : Backend) (method endpoint : String) (data : Option JValue) : JValue :=
  match b method endpoint data with
  | .response ct body text status =>
      let result := if ct == "application/json" then body
                    else JValue.obj [("content", JValue.str text)]
      if 400 ≤ status then
        match result with
        | .obj fields => JValue.obj (setKey fields "http_status" (JValue.num status))
        | other =>
            JValue.obj [("success", JValue.bool false),
                        ("error", JValue.str ("Unexpected error: " ++ itemAssignMsg other)),
                        ("error_type", JValue.str "unknown_error")]
      else result
  | .clientError msg =>
      JValue.obj [("success", JValue.bool false),
                  ("error", JValue.str ("HTTP client error: " ++ msg)),
                  ("error_type", JValue.str "client_error")]
  | .unexpectedError msg =>
      JValue.obj [("success", JValue.bool false),
                  ("error", JValue.str ("Unexpected error: " ++ msg)),
                  ("error_type", JValue.str "unknown_error")]

namespace AndroidClient

/-- `AndroidClient.health_check`. -/
def health_check (b : Backend) : JValue :=
  make_request b "GET" "/health" none

/-- `AndroidClient.get_ui_dump`. -/
def get_ui_dump (b : Backend) : JValue :=
  make_request b "GET" "/ui/dump" none

/-- `AndroidClient.get_ui_dump_xml`. -/
def get_ui_dump_xml (b : Backend) : JValue :=
  make_request b "GET" "/ui/dump/xml" none

/-- `AndroidClient.click_element`: POST `{"selector": selector}`. -/
def click_element (b : Backend) (selector : JValue) : JValue :=
  make_request b "POST" "/ui/click" (some (JValue.obj [("selector", selector)]))

/-- The payload built by `AndroidClient.input_text` (lines 97-101). -/
def input_text_data (selector text clear_first : JValue) : JValue :=
  JValue.obj [("selector", selector), ("text", text), ("clear_first", clear_first)]

/-- `AndroidClient.input_text`. -/
def input_text (b : Backend) (selector text clear_first : JValue) : JValue :=
  make_request b "POST" "/ui/input" (some (input_text_data selector text clear_first))

/-- Python truthiness of the decoded JSON values that can appear as the
optional `selector` argument of `AndroidClient.scroll`. -/
def jtruthy : JValue → Bool
  | .null => false
  | .bool b => b
  | .num n => n != 0
  | .str s => s != ""
  | .arr l => !l.isEmpty
  | .obj l => !l.isEmpty

/-- The payload built by `AndroidClient.scroll` (lines 106-111):
`direction` and `steps` always; `selector` only when truthy (`if selector:`). -/
def scroll_data (direction steps : JValue) (selector : Option JValue) : JValue :=
  JValue.obj (("direction", direction) :: ("steps", steps) ::
    (match selector with
     | some s => if jtruthy s then [("selector", s)] else []
     | none => []))

/-- `AndroidClient.scroll`. -/
def scroll (b : Backend) (direction steps : JValue) (selector : Option JValue) : JValue :=
  make_request b "POST" "/ui/scroll" (some (scroll_data direction steps selector))

/-- The payload built by `AndroidClient.wait_for_element` (lines 117-121). -/
def wait_data (selector timeout condition : JValue) : JValue :=
  JValue.obj [("selector", selector), ("timeout", timeout), ("condition", condition)]

/-- `AndroidClient.wait_for_element`. -/
def wait_for_element (b : Backend) (selector timeout condition : JValue) : JValue :=
  make_request b "POST" "/ui/wait" (some (wait_data selector timeout condition))

/-- `AndroidClient.press_back`. -/
def press_back (b : Backend) : JValue :=
  make_request b "POST" "/device/back" none

/-- `AndroidClient.press_home`. -/
def press_home (b : Backend) : JValue :=
  make_request b "POST" "/device/home" none

/-- `AndroidClient.press_recent`. -/
def press_recent (b : Backend) : JValue :=
  make_request b "POST" "/device/recent" none

/-- `AndroidClient.get_device_info`. -/
def get_device_info (b : Backend) : JValue :=
  make_request b "GET" "/device/info" none

end AndroidClient

/-- One lowercase hexadecimal digit. -/
def hexDigit (n : Nat) : Char :=
  if n < 10 then Char.ofNat (48 + n) else Char.ofNat (87 + n)

/-- Four lowercase hexadecimal digits, as in Python's `\uXXXX` escapes. -/
def hex4 (n : Nat) : String :=
  String.mk [hexDigit (n / 4096 % 16), hexDigit (n / 256 % 16),
             hexDigit (n / 16 % 16), hexDigit (n % 16)]

/-- `json.dumps` escaping of a single character inside a string literal:
quote, backslash and control characters are always escaped; with
`ensure_ascii` every non-ASCII character becomes `\uXXXX` (a surrogate
pair beyond the BMP). -/
def escapeChar (ensureAscii : Bool) (c : Char) : String :=
  if c.toNat == 34 then "\\\""
  else if c.toNat == 92 then "\\\\"
  else if c.toNat == 10 then "\\n"
  else if c.toNat == 9 then "\\t"
  else if c.toNat == 13 then "\\r"
  else if c.toNat == 8 then "\\b"
  else if c.toNat == 12 then "\\f"
  else if c.toNat < 32 then "\\u" ++ hex4 c.toNat
  else if ensureAscii && 126 < c.toNat then
    if c.toNat ≤ 65535 then "\\u" ++ hex4 c.toNat
    else
      "\\u" ++ hex4 (55296 + (c.toNat - 65536) / 1024) ++
      "\\u" ++ hex4 (56320 + (c.toNat - 65536) % 1024)
  else String.singleton c

/-- A JSON string literal as rendered by `json.dumps`. -/
def jstringLit (ensureAscii : Bool) (s : String) : String :=
  "\"" ++ String.join (s.data.map (escapeChar ensureAscii)) ++ "\""

/-- Indentation at nesting level `lvl` for `json.dumps(..., indent=ind)`. -/
def indentStr (ind lvl : Nat) : String :=
  String.mk (List.replicate (ind * lvl) ' ')

mutual

/-- `json.dumps(v, indent=ind, ensure_ascii=ea)` at nesting level `lvl`. -/
def dumpsVal (ea : Bool) (ind lvl : Nat) : JValue → String
  | .null => "null"
  | .bool b => if b then "true" else "false"
  | .num n => toString n
  | .str s => jstringLit ea s
  | .arr [] => "[]"
  | .arr (x :: xs) =>
      "[\n" ++ dumpsItems ea ind (lvl + 1) x xs ++ "\n" ++ indentStr ind lvl ++ "]"
  | .obj [] => "\x7b\x7d"
  | .obj (f :: fs) =>
      "\x7b\n" ++ dumpsFields ea ind (lvl + 1) f fs ++ "\n" ++ indentStr ind lvl ++ "\x7d"
termination_by v => sizeOf v

/-- Comma-and-newline separated array items, each on its own indented line. -/
def dumpsItems (ea : Bool) (ind lvl : Nat) : JValue → List JValue → String
  | x, [] => indentStr ind lvl ++ dumpsVal ea ind lvl x
  | x, y :: ys =>
      indentStr ind lvl ++ dumpsVal ea ind lvl x ++ ",\n" ++ dumpsItems ea ind lvl y ys
termination_by x xs => 1 + sizeOf x + sizeOf xs

/-- Comma-and-newline separated object fields, `"key": value` per line. -/
def dumpsFields (ea : Bool) (ind lvl : Nat) :
    (String × JValue) → List (String × JValue) → String
  | (k, v), [] => indentStr ind lvl ++ jstringLit ea k ++ ": " ++ dumpsVal ea ind lvl v
  | (k, v), f :: fs =>
      indentStr ind lvl ++ jstringLit ea k ++ ": " ++ dumpsVal ea ind lvl v ++ ",\n" ++
      dumpsFields ea ind lvl f fs
termination_by f fs => 1 + sizeOf f + sizeOf fs

end

/-- `json.dumps(v, indent=ind, ensure_ascii=ea)`. -/
def json_dumps (v : JValue) (ind : Nat) (ea : Bool) : String :=
  dumpsVal ea ind 0 v

/-- The 9 tool names of the catalog declared by `handle_list_tools`
(`server.py` lines 42-221). -/
def toolNames : List String :=
  ["get_ui_dump", "click_element", "input_text", "scroll_screen",
   "wait_for_element", "press_back", "press_home", "press_recent",
   "get_device_info"]

/-- The six selector keys of the `click_element` input schema
(`server.py` lines 57-88). -/
def recognizedSelectorKeys : List String :=
  ["resource_id", "text", "text_contains", "class_name", "content_desc", "bounds"]

/-- The selector built by the `click_element` branch of `handle_call_tool`
(line 238): all entries of the argument bag whose value is not `None`. -/
def selectorOf (args : List (String × JValue)) : List (String × JValue) :=
  args.filter (fun kv => !isNull kv.2)

/-- JSON-Schema validity of an argument bag for the `scroll_screen` input
schema literal (`server.py` lines 132-149): `direction` is required and
must be one of the four enum strings; `steps`, when present, must be an
integer within `minimum` 1 and `maximum` 10. -/
def scroll_screen_schema_ok (args : List (String × JValue)) : Bool :=
  (match dget args "direction" with
   | some (.str d) => d == "up" || d == "down" || d == "left" || d == "right"
   | _ => false) &&
  (match dget args "steps" with
   | none => true
   | some (.num n) => decide (1 ≤ n) && decide (n ≤ 10)
   | some _ => false)

/-- The body of the `try` block of `handle_call_tool` (`server.py` lines
228-306), one branch per tool in source order; `Except.error` models an
exception escaping the `try` body (a `KeyError` from a subscript, or the
`ValueError` raised for an unknown tool name). -/
def handle_call_tool_try (b : Backend) (name : String) (args : List (String × JValue)) :
    Except PyErr (List String) :=
  if name = "get_ui_dump" then
    Except.ok [json_dumps (AndroidClient.get_ui_dump b) 2 false]
  else if name = "click_element" then
    Except.ok [json_dumps (AndroidClient.click_element b (JValue.obj (selectorOf args))) 2 true]
  else if name = "input_text" then do
    let text ← dsub args "text"
    let selector ← dsub args "selector"
    let clear_first := dgetD args "clear_first" (JValue.bool true)
    Except.ok [json_dumps (AndroidClient.input_text b selector text clear_first) 2 true]
  else if name = "scroll_screen" then do
    let direction ← dsub args "direction"
    let steps := dgetD args "steps" (JValue.num 1)
    Except.ok [json_dumps (AndroidClient.scroll b direction steps none) 2 true]
  else if name = "wait_for_element" then do
    let selector ← dsub args "selector"
    let timeout := dgetD args "timeout" (JValue.num 5000)
    let condition := dgetD args "condition" (JValue.str "visible")
    Except.ok [json_dumps (AndroidClient.wait_for_element b selector timeout condition) 2 true]
  else if name = "press_back" then
    Except.ok [json_dumps (AndroidClient.press_back b) 2 true]
  else if name = "press_home" then
    Except.ok [json_dumps (AndroidClient.press_home b) 2 true]
  else if name = "press_recent" then
    Except.ok [json_dumps (AndroidClient.press_recent b) 2 true]
  else if name = "get_device_info" then
    Except.ok [json_dumps (AndroidClient.get_device_info b) 2 true]
  else
    Except.error ⟨"ValueError", "Unknown tool: " ++ name⟩

/-- The error envelope emitted by the `except` clause of `handle_call_tool`
(lines 308-317). -/
def exceptEnvelope (e : PyErr) : JValue :=
  JValue.obj [("success", JValue.bool false),
              ("error", JValue.str e.msg),
              ("error_type", JValue.str e.ty)]

/-- `handle_call_tool` (`server.py` lines 223-317): run the `try` body and
turn any exception into the serialized error envelope.  Total: a tool
call never propagates an unhandled fault. -/
def handle_call_tool (b : Backend) (name : String) (args : List (String × JValue)) :
    List String :=
  match handle_call_tool_try b name args with
  | Except.ok r => r
  | Except.error e => [json_dumps (exceptEnvelope e) 2 true]

/-- `handle_read_resource` (`server.py` lines 337-351).  Unlike
`handle_call_tool` it has no `try`/`except`: the `ValueError` raised for
an unrecognized identifier propagates out of the handler, which the
`Except.error` result models. -/
def handle_read_resource (b : Backend) (uri : String) : Except PyErr String :=
  if uri = "android://ui/current" then
    Except.ok (json_dumps (AndroidClient.get_ui_dump b) 2 false)
  else if uri = "android://device/info" then
    Except.ok (json_dumps (AndroidClient.get_device_info b) 2 true)
  else
    Except.error ⟨"ValueError", "Unknown resource: " ++ uri⟩

/-! ## Concrete backends used by witnesses and counterexamples -/

/-- A backend that answers every request with HTTP 200 and a JSON body
echoing the method, endpoint and request data: its responses make the
exact request issued by the dispatcher observable in the tool result. -/
def echoBackend : Backend := fun method endpoint data =>
  HttpOutcome.response "application/json"
    (JValue.obj [("method", JValue.str method), ("endpoint", JValue.str endpoint),
                 ("data", data.getD JValue.null)]) "" 200

/-- A backend whose connection always fails (`aiohttp.ClientError`). -/
def connFailBackend : Backend := fun _ _ _ =>
  HttpOutcome.clientError "Cannot connect to host localhost:8080"

/-- A backend interaction that raises an unexpected (non-transport)
exception. -/
def crashBackend : Backend := fun _ _ _ =>
  HttpOutcome.unexpectedError "boom"

/-- A backend that answers HTTP 500 with a JSON body that already carries
an `http_status` field (equal to 200). -/
def overrideBackend : Backend := fun _ _ _ =>
  HttpOutcome.response "application/json"
    (JValue.obj [("success", JValue.bool false), ("http_status", JValue.num 200)]) "" 500

/-- A backend that answers HTTP 500 with the JSON body
`{"success": false, "error": "Internal server error"}` (the simulated
backend of spec §8 property 5). -/
def err500Backend : Backend := fun _ _ _ =>
  HttpOutcome.response "application/json"
    (JValue.obj [("success", JValue.bool false),
                 ("error", JValue.str "Internal server error")]) "" 500

/-! ## Claims -/

/-- C1: for every `click_element` call whose argument bag has at least one
non-null value among the six recognized selector keys, the dispatcher
forwards to the backend click operation a selector that consists of
exactly the non-null entries of the argument bag, keys verbatim — no
extra key injected, no non-null key dropped. -/
theorem claim_C1 (b : Backend) (args : List (String × JValue))
    (h : ∃ k, k ∈ recognizedSelectorKeys ∧ ∃ v, dget args k = some v ∧ isNull v = false) :
    handle_call_tool b "click_element" args =
      [json_dumps (AndroidClient.click_element b (JValue.obj (selectorOf args))) 2 true] ∧
    ∀ kv : String × JValue, kv ∈ selectorOf args ↔ (kv ∈ args ∧ isNull kv.2 = false) := by
  refine ⟨rfl, ?_⟩
  intro kv
  simp [selectorOf, List.mem_filter]

/-- C1 witness: a bag with `text = "OK"` and a null `class_name` is
forwarded as the selector `{"text": "OK"}` (the null entry stripped). -/
theorem claim_C1_witness :
    handle_call_tool echoBackend "click_element"
        [("text", JValue.str "OK"), ("class_name", JValue.null)] =
      [json_dumps (AndroidClient.click_element echoBackend
        (JValue.obj [("text", JValue.str "OK")])) 2 true] :=
  (claim_C1 echoBackend [("text", JValue.str "OK"), ("class_name", JValue.null)]
    ⟨"text", by simp [recognizedSelectorKeys], JValue.str "OK", rfl, rfl⟩).1

/-- C2: every Backend Client operation resolves to a JSON-shaped object
and never raises (`make_request` is a total function into `JValue`); a
connection-level failure yields the `client_error` envelope and any other
unexpected failure the `unknown_error` envelope, message prefixes
included. -/
theorem claim_C2 (b : Backend) (method endpoint : String) (data : Option JValue) :
    (∀ msg, b method endpoint data = HttpOutcome.clientError msg →
      make_request b method endpoint data =
        JValue.obj [("success", JValue.bool false),
                    ("error", JValue.str ("HTTP client error: " ++ msg)),
                    ("error_type", JValue.str "client_error")]) ∧
    (∀ msg, b method endpoint data = HttpOutcome.unexpectedError msg →
      make_request b method endpoint data =
        JValue.obj [("success", JValue.bool false),
                    ("error", JValue.str ("Unexpected error: " ++ msg)),
                    ("error_type", JValue.str "unknown_error")]) := by
  constructor <;> (intro msg h; unfold make_request; rw [h])

/-- C2 witness: a connection failure on `/health` and an unexpected
exception on `/ui/dump` produce the two error envelopes. -/
theorem claim_C2_witness :
    make_request connFailBackend "GET" "/health" none =
      JValue.obj [("success", JValue.bool false),
                  ("error", JValue.str "HTTP client error: Cannot connect to host localhost:8080"),
                  ("error_type", JValue.str "client_error")] ∧
    make_request crashBackend "GET" "/ui/dump" none =
      JValue.obj [("success", JValue.bool false),
                  ("error", JValue.str "Unexpected error: boom"),
                  ("error_type", JValue.str "unknown_error")] :=
  ⟨(claim_C2 connFailBackend "GET" "/health" none).1
      "Cannot connect to host localhost:8080" rfl,
   (claim_C2 crashBackend "GET" "/ui/dump" none).2 "boom" rfl⟩

/-- C3 counterexample: against a backend answering HTTP 500 with the body
`{"success": false, "http_status": 200}` — a body that already carries an
`http_status` field — `health_check` returns `http_status = 500`, not the
body's own 200: `_make_request` (line 60) assigns unconditionally, so the
claim that a body-carried `http_status` survives unchanged is false. -/
theorem claim_C3_counterexample :
    AndroidClient.health_check overrideBackend =
      JValue.obj [("success", JValue.bool false), ("http_status", JValue.num 500)] ∧
    (500 : Int) ≠ 200 := ⟨rfl, by decide⟩

/-- C3 (amended): for every request whose response has HTTP status ≥ 400
and whose decoded body (the JSON body, or the `{"content": <raw text>}`
wrapper for non-JSON content types) is a JSON object, the body is
returned normally (no exception) with `http_status` set to the numeric
status unconditionally — overwriting any `http_status` the body already
carried. -/
theorem claim_C3_amended (b : Backend) (method endpoint : String) (data : Option JValue)
    (ct : String) (body : JValue) (text : String) (status : Nat)
    (fields : List (String × JValue))
    (hb : b method endpoint data = HttpOutcome.response ct body text status)
    (hs : 400 ≤ status)
    (hobj : (if ct == "application/json" then body
             else JValue.obj [("content", JValue.str text)]) = JValue.obj fields) :
    make_request b method endpoint data =
      JValue.obj (setKey fields "http_status" (JValue.num status)) := by
  unfold make_request
  rw [hb]
  simp only [hobj, if_pos hs]

/-- C3 witness: the spec §8 example — HTTP 500 with body
`{"success": false, "error": "Internal server error"}` makes
`health_check` return that body with `http_status = 500` appended. -/
theorem claim_C3_amended_witness :
    make_request err500Backend "GET" "/health" none =
      JValue.obj [("success", JValue.bool false),
                  ("error", JValue.str "Internal server error"),
                  ("http_status", JValue.num 500)] :=
  claim_C3_amended err500Backend "GET" "/health" none "application/json"
    (JValue.obj [("success", JValue.bool false),
                 ("error", JValue.str "Internal server error")]) "" 500
    [("success", JValue.bool false), ("error", JValue.str "Internal server error")]
    rfl (by decide) rfl

/-- C4 counterexample: calling the unknown tool `frobnicate` returns a
failure envelope whose `error_type` is `"ValueError"` — the name of the
exception class raised at `server.py` line 306 and echoed by the
`except` clause at line 315 — not the claimed `"unknown tool"`. -/
theorem claim_C4_counterexample :
    handle_call_tool echoBackend "frobnicate" [] =
      [json_dumps (JValue.obj [("success", JValue.bool false),
                               ("error", JValue.str "Unknown tool: frobnicate"),
                               ("error_type", JValue.str "ValueError")]) 2 true] ∧
    ("ValueError" : String) ≠ "unknown tool" := ⟨rfl, by decide⟩

/-- C4 (amended): for every tool call whose name is not one of the 9
catalog tool names, the dispatcher returns (does not crash on) a failure
envelope with `success = false`, error text `"Unknown tool: <name>"`, and
`error_type` equal to `"ValueError"` (the raised exception's class name),
not `"unknown tool"`. -/
theorem claim_C4_amended (b : Backend) (name : String) (args : List (String × JValue))
    (h : name ∉ toolNames) :
    handle_call_tool b name args =
      [json_dumps (JValue.obj [("success", JValue.bool false),
                               ("error", JValue.str ("Unknown tool: " ++ name)),
                               ("error_type", JValue.str "ValueError")]) 2 true] := by
  simp only [toolNames, List.mem_cons, List.not_mem_nil, or_false] at h
  push_neg at h
  obtain ⟨h1, h2, h3, h4, h5, h6, h7, h8, h9⟩ := h
  simp [handle_call_tool, handle_call_tool_try, h1, h2, h3, h4, h5, h6, h7, h8, h9,
        exceptEnvelope]

/-- C4 witness: the unknown tool name `bogus` yields the `ValueError`
failure envelope. -/
theorem claim_C4_amended_witness :
    handle_call_tool echoBackend "bogus" [] =
      [json_dumps (JValue.obj [("success", JValue.bool false),
                               ("error", JValue.str "Unknown tool: bogus"),
                               ("error_type", JValue.str "ValueError")]) 2 true] :=
  claim_C4_amended echoBackend "bogus" [] (by decide)

/-- C5 counterexample: reading the unknown resource `android://nope` does
not return a `success = false` envelope — `handle_read_resource` has no
`try`/`except` (`server.py` lines 337-351), so the `ValueError` raised at
line 351 propagates out of the handler (modelled by `Except.error`). -/
theorem claim_C5_counterexample :
    handle_read_resource echoBackend "android://nope" =
      Except.error ⟨"ValueError", "Unknown resource: android://nope"⟩ := rfl

/-- C5 (amended): for every `read_resource` call whose identifier is
neither `android://ui/current` nor `android://device/info`, the handler
raises a `ValueError` with message `"Unknown resource: <uri>"` out of the
handler itself; no `success = false` envelope is produced by this
repository's code (any recovery would happen in the protocol library
above it). -/
theorem claim_C5_amended (b : Backend) (uri : String)
    (h1 : uri ≠ "android://ui/current") (h2 : uri ≠ "android://device/info") :
    handle_read_resource b uri =
      Except.error ⟨"ValueError", "Unknown resource: " ++ uri⟩ := by
  simp [handle_read_resource, h1, h2]

/-- C5 witness: the unknown identifier `android://bogus` makes the handler
raise `ValueError("Unknown resource: android://bogus")`. -/
theorem claim_C5_amended_witness :
    handle_read_resource echoBackend "android://bogus" =
      Except.error ⟨"ValueError", "Unknown resource: android://bogus"⟩ :=
  claim_C5_amended echoBackend "android://bogus" (by decide) (by decide)

/-- C6 counterexample: a `scroll_screen` call with `steps = 100` — outside
the schema's [1,10] range, as the schema-validity conjunct records — is
not rejected: the dispatcher forwards it, and the echoing backend's reply
shows the POST to `/ui/scroll` carried `steps = 100`.  Nothing in
`server.py` re-validates the range (the input schema is declarative
only). -/
theorem claim_C6_counterexample :
    handle_call_tool echoBackend "scroll_screen"
        [("direction", JValue.str "up"), ("steps", JValue.num 100)] =
      [json_dumps (JValue.obj
        [("method", JValue.str "POST"), ("endpoint", JValue.str "/ui/scroll"),
         ("data", JValue.obj [("direction", JValue.str "up"),
                              ("steps", JValue.num 100)])]) 2 true] ∧
    scroll_screen_schema_ok [("direction", JValue.str "up"), ("steps", JValue.num 100)] = false :=
  ⟨rfl, rfl⟩

/-- C6 (amended): for every `scroll_screen` call, the backend payload's
`steps` equals the caller-supplied value when present and 1 when omitted;
`steps` outside [1,10] violates the declared input schema (so a
schema-validating protocol layer would reject it), but the dispatcher
itself performs no range check and forwards such values to the backend
unchanged. -/
theorem claim_C6_amended (b : Backend) (args : List (String × JValue)) (direction : JValue)
    (h : dget args "direction" = some direction) :
    handle_call_tool b "scroll_screen" args =
      [json_dumps (make_request b "POST" "/ui/scroll"
        (some (JValue.obj [("direction", direction),
                           ("steps", dgetD args "steps" (JValue.num 1))]))) 2 true] ∧
    (∀ n : Int, dget args "steps" = some (JValue.num n) → (n < 1 ∨ 10 < n) →
      scroll_screen_schema_ok args = false) := by
  constructor
  · simp only [handle_call_tool, handle_call_tool_try, dsub, h]
    rfl
  · intro n hn hr
    rcases hr with hr | hr
    · have hd : decide (1 ≤ n) = false := by simp; omega
      simp [scroll_screen_schema_ok, hn, hd]
    · have hd : decide (n ≤ 10) = false := by simp; omega
      simp [scroll_screen_schema_ok, hn, hd]

/-- C6 witness: `scroll_screen` with direction `down` and no `steps`
argument sends `steps = 1` to `/ui/scroll`. -/
theorem claim_C6_amended_witness :
    handle_call_tool echoBackend "scroll_screen" [("direction", JValue.str "down")] =
      [json_dumps (make_request echoBackend "POST" "/ui/scroll"
        (some (JValue.obj [("direction", JValue.str "down"),
                           ("steps", JValue.num 1)]))) 2 true] :=
  (claim_C6_amended echoBackend [("direction", JValue.str "down")] (JValue.str "down") rfl).1

/-- C7: for every `input_text` call (requiring `text` and `selector`),
the backend payload always contains the `clear_first` field, equal to the
caller-supplied value when present and `true` when omitted. -/
theorem claim_C7 (b : Backend) (args : List (String × JValue)) (text selector : JValue)
    (ht : dget args "text" = some text) (hs : dget args "selector" = some selector) :
    handle_call_tool b "input_text" args =
      [json_dumps (make_request b "POST" "/ui/input"
        (some (JValue.obj [("selector", selector), ("text", text),
                           ("clear_first", dgetD args "clear_first" (JValue.bool true))]))) 2 true] ∧
    dget [("selector", selector), ("text", text),
          ("clear_first", dgetD args "clear_first" (JValue.bool true))] "clear_first" =
      some (dgetD args "clear_first" (JValue.bool true)) := by
  refine ⟨?_, rfl⟩
  simp only [handle_call_tool, handle_call_tool_try, dsub, ht, hs]
  rfl

/-- C7 witness: `input_text` with `clear_first` omitted sends
`clear_first = true` to `/ui/input`. -/
theorem claim_C7_witness :
    handle_call_tool echoBackend "input_text"
        [("text", JValue.str "hello"),
         ("selector", JValue.obj [("resource_id", JValue.str "field")])] =
      [json_dumps (make_request echoBackend "POST" "/ui/input"
        (some (JValue.obj
          [("selector", JValue.obj [("resource_id", JValue.str "field")]),
           ("text", JValue.str "hello"),
           ("clear_first", JValue.bool true)]))) 2 true] :=
  (claim_C7 echoBackend
    [("text", JValue.str "hello"),
     ("selector", JValue.obj [("resource_id", JValue.str "field")])]
    (JValue.str "hello") (JValue.obj [("resource_id", JValue.str "field")]) rfl rfl).1

/-- C8: for every `wait_for_element` call (requiring `selector`), the
backend payload's `timeout` is the caller-supplied value or 5000 when
omitted, and its `condition` is the caller-supplied value or `"visible"`
when omitted. -/
theorem claim_C8 (b : Backend) (args : List (String × JValue)) (selector : JValue)
    (hs : dget args "selector" = some selector) :
    handle_call_tool b "wait_for_element" args =
      [json_dumps (make_request b "POST" "/ui/wait"
        (some (JValue.obj [("selector", selector),
                           ("timeout", dgetD args "timeout" (JValue.num 5000)),
                           ("condition", dgetD args "condition" (JValue.str "visible"))]))) 2 true] := by
  simp only [handle_call_tool, handle_call_tool_try, dsub, hs]
  rfl

/-- C8 witness: `wait_for_element` with `timeout` and `condition` omitted
sends `timeout = 5000` and `condition = "visible"` to `/ui/wait`. -/
theorem claim_C8_witness :
    handle_call_tool echoBackend "wait_for_element"
        [("selector", JValue.obj [("text", JValue.str "Done")])] =
      [json_dumps (make_request echoBackend "POST" "/ui/wait"
        (some (JValue.obj
          [("selector", JValue.obj [("text", JValue.str "Done")]),
           ("timeout", JValue.num 5000),
           ("condition", JValue.str "visible")]))) 2 true] :=
  claim_C8 echoBackend [("selector", JValue.obj [("text", JValue.str "Done")])]
    (JValue.obj [("text", JValue.str "Done")]) rfl

/-- C9: against any backend, reading `android://ui/current` returns the
same serialized payload as calling the `get_ui_dump` tool: both invoke
`AndroidClient.get_ui_dump` and serialize its result with
`json.dumps(result, indent=2, ensure_ascii=False)` (pretty-printed,
non-ASCII preserved). -/
theorem claim_C9 (b : Backend) (args : List (String × JValue)) :
    handle_read_resource b "android://ui/current" =
      Except.ok (json_dumps (AndroidClient.get_ui_dump b) 2 false) ∧
    handle_call_tool b "get_ui_dump" args =
      [json_dumps (AndroidClient.get_ui_dump b) 2 false] := ⟨rfl, rfl⟩

/-- C10: for every `scroll_screen` call, the payload POSTed to
`/ui/scroll` is exactly `{"direction": ..., "steps": ...}` — its key list
is `["direction", "steps"]` and it carries no `selector` key — because
the dispatcher calls `AndroidClient.scroll` without the optional
`selector` argument. -/
theorem claim_C10 (b : Backend) (args : List (String × JValue)) (direction : JValue)
    (h : dget args "direction" = some direction) :
    handle_call_tool b "scroll_screen" args =
      [json_dumps (AndroidClient.scroll b direction
        (dgetD args "steps" (JValue.num 1)) none) 2 true] ∧
    AndroidClient.scroll_data direction (dgetD args "steps" (JValue.num 1)) none =
      JValue.obj [("direction", direction), ("steps", dgetD args "steps" (JValue.num 1))] ∧
    List.map Prod.fst
        [("direction", direction), ("steps", dgetD args "steps" (JValue.num 1))] =
      ["direction", "steps"] ∧
    dget [("direction", direction), ("steps", dgetD args "steps" (JValue.num 1))] "selector" =
      none := by
  refine ⟨?_, rfl, rfl, rfl⟩
  simp only [handle_call_tool, handle_call_tool_try, dsub, h]
  rfl

/-- C10 witness: `scroll_screen` with direction `left` and `steps = 3`
issues a whole-screen scroll request with no selector. -/
theorem claim_C10_witness :
    handle_call_tool echoBackend "scroll_screen"
        [("direction", JValue.str "left"), ("steps", JValue.num 3)] =
      [json_dumps (AndroidClient.scroll echoBackend (JValue.str "left")
        (JValue.num 3) none) 2 true] :=
  (claim_C10 echoBackend [("direction", JValue.str "left"), ("steps", JValue.num 3)]
    (JValue.str "left") rfl).1
